import Mathlib

/-!
Verification of the Cruel-Server reminder scheduling and multi-channel
dispatch engine.  The definitions below are a shallow embedding of the
Python sources: `simple_email_reminder.py` (the polling scheduler),
`app/routes/notification_settings_routes.py` (configuration resolution),
`app/routes/deadline_routes.py` (reminder-instance creation) and
`app/services/enhanced_notification_service.py` (channel dispatchers).
Times and durations are modelled as whole seconds (signed integers);
provider behaviour is an explicit environment so that the pure control
flow of the code can be reasoned about.
-/

/-- Python truthiness of an optional string: `None` and the empty string
are falsy, every other string is truthy. -/
def truthy : Option String → Bool
  | none => false
  | some s => decide (s ≠ "")

/-- The lead-duration catalog of `check_and_send_reminders`
(`simple_email_reminder.py`, the `time_map` dict): `dict.get` yields no
duration for a class outside the catalog. -/
def time_map (reminder_type : String) : Option Int :=
  if reminder_type = "1_hour" then some 3600
  else if reminder_type = "1_day" then some 86400
  else if reminder_type = "1_week" then some 604800
  else if reminder_type = "2_weeks" then some 1209600
  else if reminder_type = "1_month" then some 2592000
  else none

/-- The fixed catalog of lead-time classes. -/
def catalog : List String := ["1_hour", "1_day", "1_week", "2_weeks", "1_month"]

/-- The slack window of the scheduler: `timedelta(minutes=5)` in
`check_and_send_reminders`. -/
def tolerance : Int := 300

/-- The due-window evaluation of `check_and_send_reminders`
(`simple_email_reminder.py` lines 128 to 135): an unknown class has no
mapped duration and the loop moves on (never due); otherwise the
reminder is due when `abs(time_until - time_before) <= 5 minutes` with
`time_until = deadline_date - now`. -/
def is_due (now target : Int) (cls : String) : Bool :=
  match time_map cls with
  | none => false
  | some lead => decide (|target - now - lead| ≤ tolerance)

/-- Every duration in the catalog is at least one hour. -/
theorem time_map_lead_ge (cls : String) (lead : Int) (h : time_map cls = some lead) :
    3600 ≤ lead := by
  unfold time_map at h
  split_ifs at h <;> simp_all <;> omega

/-- A `notification_reminders` row as the scheduler sees it: an id, a
lead-time class (`reminder_type`), the `sent` flag and the `sent_at`
timestamp (null until written). -/
structure Reminder where
  id : Nat
  reminder_type : String
  sent : Bool
  sent_at : Option Int
deriving DecidableEq, Repr

/-- A scheduler tick environment: the tick's `now` and the outcome the
SendGrid provider would report for an email dispatched for a given
reminder id (true when `send_email` returns True). -/
structure TickEnv where
  now : Int
  emailOk : Nat → Bool

/-- How one pass of `check_and_send_reminders` classifies a single
reminder row (lines 112 to 146 of `simple_email_reminder.py`). -/
inductive EvalResult where
  | skippedSent
  | skippedUnknown
  | notDue
  | dispatched (emailSuccess : Bool)
deriving DecidableEq, Repr

/-- Per-reminder evaluation of `check_and_send_reminders`: a row with
`sent` already true is skipped (line 114); a class outside the catalog
gets no duration and the loop continues (lines 128 to 130); otherwise
the email is dispatched exactly when the due window holds (line 135),
and the provider verdict is recorded. -/
def eval_reminder (env : TickEnv) (deadline_date : Int) (r : Reminder) : EvalResult :=
  if r.sent then .skippedSent
  else match time_map r.reminder_type with
    | none => .skippedUnknown
    | some lead =>
      if |deadline_date - env.now - lead| ≤ tolerance then .dispatched (env.emailOk r.id)
      else .notDue

/-- The state effect of one pass over a single reminder row: the updated
row together with the list of dispatch attempts (ids for which
`send_email` was called).  On provider success the code PATCHes only
`{"sent": true}` (line 144) — `sent_at` is not written; on failure
nothing is written and the row is retried on a later tick. -/
def process_reminder (env : TickEnv) (deadline_date : Int) (r : Reminder) :
    Reminder × List Nat :=
  match eval_reminder env deadline_date r with
  | .dispatched true => ({ r with sent := true }, [r.id])
  | .dispatched false => (r, [r.id])
  | _ => (r, [])

/-- Iterating ticks over one reminder row: the row after a sequence of
tick environments. -/
def run_reminder : List TickEnv → Int → Reminder → Reminder
  | [], _, r => r
  | e :: es, dd, r => run_reminder es dd (process_reminder e dd r).1

/-- All dispatch attempts for one reminder row over a sequence of ticks. -/
def dispatched_run : List TickEnv → Int → Reminder → List Nat
  | [], _, _ => []
  | e :: es, dd, r =>
      (process_reminder e dd r).2 ++ dispatched_run es dd (process_reminder e dd r).1

/-- The successive states of one reminder row along a sequence of ticks
(first element is the initial row). -/
def reminder_trace : List TickEnv → Int → Reminder → List Reminder
  | [], _, r => [r]
  | e :: es, dd, r => r :: reminder_trace es dd (process_reminder e dd r).1

/-- A reminder already marked sent is left untouched by a tick and
dispatches nothing. -/
theorem process_reminder_sent (env : TickEnv) (dd : Int) (r : Reminder)
    (h : r.sent = true) : process_reminder env dd r = (r, []) := by
  simp [process_reminder, eval_reminder, h]

/-- A tick never clears the sent flag. -/
theorem process_reminder_mono (env : TickEnv) (dd : Int) (r : Reminder)
    (h : r.sent = true) : (process_reminder env dd r).1.sent = true := by
  rw [process_reminder_sent env dd r h]; exact h

/-- The trace of a reminder always starts with the reminder itself. -/
theorem reminder_trace_head (envs : List TickEnv) (dd : Int) (r : Reminder) :
    (reminder_trace envs dd r).head? = some r := by
  cases envs <;> rfl

/-- A reminder already marked sent stays untouched over any run of ticks
and is never dispatched. -/
theorem run_reminder_sent (envs : List TickEnv) (dd : Int) (r : Reminder)
    (h : r.sent = true) :
    run_reminder envs dd r = r ∧ dispatched_run envs dd r = [] := by
  induction envs with
  | nil => exact ⟨rfl, rfl⟩
  | cons e es ih =>
    simp only [run_reminder, dispatched_run, process_reminder_sent e dd r h]
    simpa using ih

/-- A tick at time 0 whose email provider accepts every send. -/
def envT : TickEnv := { now := 0, emailOk := fun _ => true }

/-- A tick at time 0 whose email provider rejects every send. -/
def envF : TickEnv := { now := 0, emailOk := fun _ => false }

/-- C1: over any sequence of scheduler ticks, a reminder's `sent` field
goes from false to true at most once: along the trace of states the flag
is monotone (once true it stays true), and a record already marked sent
is skipped by every later tick — no notification is dispatched for it
and its sent fields are never written again
(`simple_email_reminder.py` lines 112 to 146). -/
theorem reminder_sent_at_most_once (envs : List TickEnv) (dd : Int) (r : Reminder) :
    List.Chain' (fun a b => a.sent = true → b.sent = true) (reminder_trace envs dd r) ∧
    (r.sent = true →
      (∀ e : TickEnv, process_reminder e dd r = (r, [])) ∧
      run_reminder envs dd r = r ∧ dispatched_run envs dd r = []) := by
  constructor
  · induction envs generalizing r with
    | nil => simp [reminder_trace]
    | cons e es ih =>
      rw [reminder_trace, List.chain'_cons']
      refine ⟨?_, ih _⟩
      intro b hb hsent
      rw [reminder_trace_head] at hb
      simp only [Option.mem_some_iff] at hb
      subst hb
      exact process_reminder_mono e dd r hsent
  · intro h
    exact ⟨fun e => process_reminder_sent e dd r h, run_reminder_sent envs dd r h⟩

/-- Witness for C1 at a concrete already-sent reminder and one tick. -/
theorem reminder_sent_at_most_once_witness :
    run_reminder [envT] 3600
        { id := 1, reminder_type := "1_hour", sent := true, sent_at := none } =
      { id := 1, reminder_type := "1_hour", sent := true, sent_at := none } ∧
    dispatched_run [envT] 3600
        { id := 1, reminder_type := "1_hour", sent := true, sent_at := none } = [] :=
  ((reminder_sent_at_most_once [envT] 3600
    { id := 1, reminder_type := "1_hour", sent := true, sent_at := none }).2 rfl).2

/-- C2: for every `now`, target time and class of the fixed catalog
(mapped to 1 hour, 1 day, 1 week, 2 weeks and 30 days), the due-window
evaluation holds iff `|time_until - lead| <= tolerance` with tolerance 5
minutes; it is true at a deviation of exactly the tolerance and false at
tolerance plus one second. -/
theorem is_due_window_boundary (now target : Int) (cls : String) (lead : Int)
    (h : time_map cls = some lead) :
    (time_map "1_hour" = some 3600 ∧ time_map "1_day" = some 86400 ∧
     time_map "1_week" = some 604800 ∧ time_map "2_weeks" = some 1209600 ∧
     time_map "1_month" = some 2592000) ∧
    (is_due now target cls = true ↔ |target - now - lead| ≤ tolerance) ∧
    is_due now (now + lead + tolerance) cls = true ∧
    is_due now (now + lead + tolerance + 1) cls = false := by
  refine ⟨by decide, ?_, ?_, ?_⟩
  · simp [is_due, h]
  · simp only [is_due, h, tolerance, decide_eq_true_eq, abs_le]
    omega
  · simp only [is_due, h, tolerance, decide_eq_false_iff_not, abs_le]
    omega

/-- Witness for C2 at the 1-hour class. -/
theorem is_due_window_boundary_witness :
    (is_due 0 3600 "1_hour" = true ↔ |(3600 : Int) - 0 - 3600| ≤ tolerance) ∧
    is_due 0 (0 + 3600 + tolerance) "1_hour" = true ∧
    is_due 0 (0 + 3600 + tolerance + 1) "1_hour" = false :=
  (is_due_window_boundary 0 3600 "1_hour" 3600 (by decide)).2

/-- C3: a reminder whose target time lies strictly in the past is never
due, for any lead-time class (known classes have durations of at least
one hour, far beyond the 5-minute tolerance; unknown classes are never
due at all). -/
theorem past_deadline_never_due (now target : Int) (cls : String)
    (h : target - now < 0) : is_due now target cls = false := by
  cases hm : time_map cls with
  | none => simp [is_due, hm]
  | some lead =>
    have hl := time_map_lead_ge cls lead hm
    simp only [is_due, hm, tolerance, decide_eq_false_iff_not, abs_le]
    omega

/-- Witness for C3: one hour past due, 1-hour class. -/
theorem past_deadline_never_due_witness :
    is_due 0 (-3600) "1_hour" = false :=
  past_deadline_never_due 0 (-3600) "1_hour" (by decide)


/-- C4 counterexample: a due reminder whose email dispatch succeeds is
marked `sent=true`, yet its `sent_at` field is not set to the tick's
`now` — the PATCH body in `check_and_send_reminders` (line 144) is
`{"sent": true}` only, so `sent_at` stays null.  This refutes the claim
that success marks the instance with `sent_at = now`. -/
theorem sent_at_not_written :
    (process_reminder envT 3600
        { id := 1, reminder_type := "1_hour", sent := false, sent_at := none }).1.sent
      = true ∧
    (process_reminder envT 3600
        { id := 1, reminder_type := "1_hour", sent := false, sent_at := none }).1.sent_at
      ≠ some envT.now := by
  exact ⟨rfl, by simp [process_reminder, eval_reminder, envT, time_map, tolerance]⟩

/-- C4 amended: a due reminder is marked `sent=true` iff its (single
enabled) email dispatch succeeds; `sent_at` is never written and keeps
its previous value; on provider failure the row is left entirely
unchanged (while the dispatch attempt is still recorded), so the next
tick retries it. -/
theorem mark_sent_iff_dispatch_success (env : TickEnv) (dd : Int) (r : Reminder)
    (lead : Int) (h0 : r.sent = false) (h1 : time_map r.reminder_type = some lead)
    (h2 : |dd - env.now - lead| ≤ tolerance) :
    ((process_reminder env dd r).1.sent = true ↔ env.emailOk r.id = true) ∧
    (process_reminder env dd r).1.sent_at = r.sent_at ∧
    (process_reminder env dd r).2 = [r.id] ∧
    (env.emailOk r.id = false → process_reminder env dd r = (r, [r.id])) := by
  have he : eval_reminder env dd r = .dispatched (env.emailOk r.id) := by
    simp [eval_reminder, h0, h1, h2]
  cases hp : env.emailOk r.id <;>
    simp [process_reminder, he, hp, h0]

/-- Witness for the amended C4: a successful and a failed dispatch at
the 1-hour class, one hour before the deadline. -/
theorem mark_sent_iff_dispatch_success_witness :
    ((process_reminder envT 3600
        { id := 1, reminder_type := "1_hour", sent := false, sent_at := none }).1.sent = true
      ↔ envT.emailOk 1 = true) ∧
    (process_reminder envT 3600
        { id := 1, reminder_type := "1_hour", sent := false, sent_at := none }).1.sent_at
      = none ∧
    process_reminder envF 3600
        { id := 2, reminder_type := "1_hour", sent := false, sent_at := none }
      = ({ id := 2, reminder_type := "1_hour", sent := false, sent_at := none }, [2]) :=
  ⟨(mark_sent_iff_dispatch_success envT 3600
      { id := 1, reminder_type := "1_hour", sent := false, sent_at := none } 3600
      rfl (by decide) (by decide)).1,
   (mark_sent_iff_dispatch_success envT 3600
      { id := 1, reminder_type := "1_hour", sent := false, sent_at := none } 3600
      rfl (by decide) (by decide)).2.1,
   (mark_sent_iff_dispatch_success envF 3600
      { id := 2, reminder_type := "1_hour", sent := false, sent_at := none } 3600
      rfl (by decide) (by decide)).2.2.2 rfl⟩

/-- C5 counterexample: a reminder whose class is outside the catalog is
evaluated without any error being raised: `time_map.get` returns nothing
and the loop silently continues (lines 128 to 130), leaving the row
untouched and dispatching nothing — the evaluation yields a plain skip
value, not a configuration-class error. -/
theorem unknown_class_no_error :
    eval_reminder envT 3600
        { id := 2, reminder_type := "3_days", sent := false, sent_at := none }
      = EvalResult.skippedUnknown ∧
    process_reminder envT 3600
        { id := 2, reminder_type := "3_days", sent := false, sent_at := none }
      = ({ id := 2, reminder_type := "3_days", sent := false, sent_at := none }, []) := by
  exact ⟨rfl, rfl⟩

/-- C5 amended: a reminder with an unknown lead-time class is silently
skipped: evaluation completes normally with a skip result, the row is
not modified, no notification is dispatched and no error of any kind is
produced — the reminder is treated as never due. -/
theorem unknown_class_silently_skipped (env : TickEnv) (dd : Int) (r : Reminder)
    (h0 : r.sent = false) (h1 : time_map r.reminder_type = none) :
    eval_reminder env dd r = EvalResult.skippedUnknown ∧
    process_reminder env dd r = (r, []) := by
  have he : eval_reminder env dd r = .skippedUnknown := by
    simp [eval_reminder, h0, h1]
  exact ⟨he, by simp [process_reminder, he]⟩

/-- Witness for the amended C5 at a concrete unknown class. -/
theorem unknown_class_silently_skipped_witness :
    eval_reminder envF 7200
        { id := 3, reminder_type := "2_days", sent := false, sent_at := none }
      = EvalResult.skippedUnknown ∧
    process_reminder envF 7200
        { id := 3, reminder_type := "2_days", sent := false, sent_at := none }
      = ({ id := 3, reminder_type := "2_days", sent := false, sent_at := none }, []) :=
  unknown_class_silently_skipped envF 7200
    { id := 3, reminder_type := "2_days", sent := false, sent_at := none } rfl (by decide)

/-- The row filter of the sent-flag PATCH in `check_and_send_reminders`
(line 143): the REST url is `notification_reminders?id=eq.{id}`, so the
update predicate matches on the id alone and carries no `sent=eq.false`
condition. -/
def patch_filter (rid : Nat) (r : Reminder) : Bool := r.id == rid

/-- The sent-flag commit of the code: PATCH `{"sent": true}` applied to
every row matching the id filter, unconditionally on the row's current
`sent` value (no compare-and-set). -/
def mark_sent (store : List Reminder) (rid : Nat) : List Reminder :=
  store.map (fun r => if patch_filter rid r then { r with sent := true } else r)

/-- One evaluation pass working from a previously taken snapshot of the
store (the code's read-then-write shape): each snapshot row is
evaluated; for a due unsent snapshot row the email is dispatched and, on
provider success, the live store is PATCHed by id. -/
def eval_from_snapshot (env : TickEnv) (dd : Int) (snapshot store : List Reminder) :
    List Reminder × List Nat :=
  snapshot.foldl
    (fun acc r =>
      match eval_reminder env dd r with
      | .dispatched true => (mark_sent acc.1 r.id, acc.2 ++ [r.id])
      | .dispatched false => (acc.1, acc.2 ++ [r.id])
      | _ => acc)
    (store, [])

/-- Two overlapping evaluations that both snapshot the store before
either writes: A and B read the initial store; A dispatches and writes;
B, still working from its stale snapshot, dispatches and writes again. -/
def overlapping_ticks (envA envB : TickEnv) (dd : Int) (s0 : List Reminder) :
    List Reminder × List Nat :=
  let a := eval_from_snapshot envA dd s0 s0
  let b := eval_from_snapshot envB dd s0 a.1
  (b.1, a.2 ++ b.2)

/-- C6: the sent-flag commit is not a compare-and-set.  The PATCH filter
matches a row whose `sent` is already true (first conjunct), and two
overlapping evaluations of the same unsent due reminder both dispatch a
notification and both apply their write — the dispatch log records id 1
twice, where the claim requires the second attempt to be a failed no-op. -/
theorem read_then_write_double_dispatch :
    patch_filter 1 { id := 1, reminder_type := "1_hour", sent := true, sent_at := none }
      = true ∧
    overlapping_ticks envT envT 3600
        [{ id := 1, reminder_type := "1_hour", sent := false, sent_at := none }]
      = ([{ id := 1, reminder_type := "1_hour", sent := true, sent_at := none }], [1, 1]) := by
  exact ⟨rfl, rfl⟩

/-- A `notification_settings` row as selected and inserted by
`get_notification_settings` (`notification_settings_routes.py`). -/
structure NotificationSettings where
  user_id : Nat
  email : String
  phone_number : Option String
  whatsapp_number : Option String
  email_enabled : Bool
  sms_enabled : Bool
  whatsapp_enabled : Bool
  push_enabled : Bool
deriving DecidableEq, Repr

/-- The default settings row inserted when none exists
(`notification_settings_routes.py` lines 30 to 52): the contact email is
copied from the user record when one exists, with literal fallback
"user@example.com"; the INSERT values are
`(user_id, email, NULL, NULL, true, false, false, true)` — email and
push enabled, SMS and WhatsApp disabled. -/
def default_settings (user_id : Nat) (user_email : Option String) :
    NotificationSettings :=
  { user_id := user_id
    email := user_email.getD "user@example.com"
    phone_number := none
    whatsapp_number := none
    email_enabled := true
    sms_enabled := false
    whatsapp_enabled := false
    push_enabled := true }

/-- Configuration resolution of `get_notification_settings`: return the
existing row when present, otherwise materialize (and persist) the
default. -/
def get_notification_settings (existing : Option NotificationSettings)
    (user_email : Option String) (user_id : Nat) : NotificationSettings :=
  match existing with
  | some s => s
  | none => default_settings user_id user_email

/-- C7 counterexample: for a user with no configuration row, the
materialized default has the push channel enabled — the INSERT at line
41 ends in `true` for `push_enabled` — refuting the claim that every
channel other than email is disabled in the default. -/
theorem default_settings_push_enabled :
    (get_notification_settings none (some "u@example.org") 1).push_enabled = true ∧
    (get_notification_settings none (some "u@example.org") 1).email_enabled = true := by
  exact ⟨rfl, rfl⟩

/-- C7 amended: with no existing configuration row, resolution returns
and persists a default in which the email and push channels are enabled,
SMS and WhatsApp are disabled, and the contact email is copied from the
user record when one exists (with fallback "user@example.com"). -/
theorem default_settings_resolution (user_id : Nat) (email : String)
    (existing : NotificationSettings) :
    get_notification_settings none (some email) user_id =
      { user_id := user_id, email := email, phone_number := none,
        whatsapp_number := none, email_enabled := true, sms_enabled := false,
        whatsapp_enabled := false, push_enabled := true } ∧
    get_notification_settings none none user_id =
      { user_id := user_id, email := "user@example.com", phone_number := none,
        whatsapp_number := none, email_enabled := true, sms_enabled := false,
        whatsapp_enabled := false, push_enabled := true } ∧
    get_notification_settings (some existing) (some email) user_id = existing := by
  exact ⟨rfl, rfl, rfl⟩

/-- The fixed reminder classes created for every new deadline
(`deadline_routes.py` line 21: `reminder_types = ['1_hour', '1_day']`). -/
def default_reminder_types : List String := ["1_hour", "1_day"]

/-- A freshly inserted `notification_reminders` row
(`deadline_routes.py` lines 24 to 31). -/
structure ReminderRow where
  deadline_id : Nat
  reminder_type : String
  sent : Bool
deriving DecidableEq, Repr

/-- The rows inserted by `schedule_email_reminders` for one deadline:
one unsent row per entry of the fixed default list; no user
configuration is consulted. -/
def schedule_email_reminders (deadline_id : Nat) : List ReminderRow :=
  default_reminder_types.map
    (fun t => { deadline_id := deadline_id, reminder_type := t, sent := false })

/-- Reminder creation as invoked by `create_deadline`
(`deadline_routes.py` lines 140 to 147): the background task runs only
when the user row supplied a (truthy) email; it receives just the
deadline id and the email. -/
def create_deadline_reminders (deadline_id : Nat) (user_email : Option String) :
    List ReminderRow :=
  if truthy user_email then schedule_email_reminders deadline_id else []

/-- C8 counterexample: the instances created for a new deadline always
carry the fixed classes 1_hour and 1_day; for a user whose configured
lead-time classes are, say, just 1_week, the created set does not match
the configuration — creation never reads the configuration at all. -/
theorem reminders_fixed_not_configured :
    (schedule_email_reminders 7).map ReminderRow.reminder_type = ["1_hour", "1_day"] ∧
    (schedule_email_reminders 7).map ReminderRow.reminder_type ≠ ["1_week"] := by
  exact ⟨rfl, by decide⟩

/-- C8 amended: for every successfully created deadline whose owning
user record has an email, exactly one unsent ReminderInstance row is
created per class of the fixed default list [1_hour, 1_day], independent
of the user's configured lead-time classes; with no user email, none are
created. -/
theorem reminders_created_fixed_default (d : Nat) (email : String)
    (he : email ≠ "") :
    create_deadline_reminders d (some email) =
      [{ deadline_id := d, reminder_type := "1_hour", sent := false },
       { deadline_id := d, reminder_type := "1_day", sent := false }] ∧
    create_deadline_reminders d none = [] ∧
    (schedule_email_reminders d).map ReminderRow.reminder_type
      = default_reminder_types := by
  refine ⟨?_, rfl, rfl⟩
  simp [create_deadline_reminders, truthy, he, schedule_email_reminders,
    default_reminder_types]

/-- Witness for the amended C8 at a concrete deadline and email. -/
theorem reminders_created_fixed_default_witness :
    create_deadline_reminders 7 (some "u@example.org") =
      [{ deadline_id := 7, reminder_type := "1_hour", sent := false },
       { deadline_id := 7, reminder_type := "1_day", sent := false }] ∧
    create_deadline_reminders 7 none = [] ∧
    (schedule_email_reminders 7).map ReminderRow.reminder_type
      = default_reminder_types :=
  reminders_created_fixed_default 7 "u@example.org" (by decide)

/-- The channel enum of `enhanced_notification_service.py`. -/
inductive NotificationType where
  | email
  | sms
  | whatsapp
  | push
deriving DecidableEq, Repr

/-- The delivery-status enum of `enhanced_notification_service.py`. -/
inductive NotificationStatus where
  | pending
  | sent
  | delivered
  | failed
  | unknown
deriving DecidableEq, Repr

/-- The outcome dict every dispatcher returns: a success flag, the
channel, the recipient, a status and the error detail on failure
(payload text fields of the dict are omitted: they never influence the
outcome).  No dispatcher raises: every code path of each `send_*`
method ends in one of these records. -/
structure DispatchOutcome where
  success : Bool
  notification_type : NotificationType
  recipient : String
  status : NotificationStatus
  error : Option String
deriving DecidableEq, Repr

/-- The provider credentials held by `EnhancedNotificationService`:
the SendGrid key read from the environment, whether a Twilio client was
constructed, and the Twilio sender numbers. -/
structure ServiceConfig where
  sendgrid_api_key : Option String
  twilio_client : Bool
  sms_from : Option String
  whatsapp_from : Option String
deriving DecidableEq, Repr

/-- Behaviour of the outbound providers for one dispatch: `none` means
the provider call returns normally, `some e` means it raises an
exception rendered as `e` (caught by the dispatcher's handler). -/
structure ProviderEnv where
  sendgrid_send : Option String
  twilio_sms_send : Option String
  twilio_whatsapp_send : Option String
deriving DecidableEq, Repr

/-- Dispatcher `send_email_notification` (lines 110 to 175): a missing
SendGrid key raises a ValueError inside the try block, which the
handler turns into a failed outcome; otherwise the provider call either
succeeds or its exception becomes a failed outcome. -/
def send_email_notification (cfg : ServiceConfig) (env : ProviderEnv)
    (to_email : String) : DispatchOutcome :=
  if truthy cfg.sendgrid_api_key then
    match env.sendgrid_send with
    | none =>
        { success := true, notification_type := .email, recipient := to_email,
          status := .sent, error := none }
    | some e =>
        { success := false, notification_type := .email, recipient := to_email,
          status := .failed, error := some e }
  else
    { success := false, notification_type := .email, recipient := to_email,
      status := .failed,
      error := some "SENDGRID_API_KEY environment variable is required" }

/-- Dispatcher `send_sms_notification` (lines 177 to 220): incomplete
Twilio configuration raises inside the try block and becomes a failed
outcome; otherwise the provider verdict decides. -/
def send_sms_notification (cfg : ServiceConfig) (env : ProviderEnv)
    (phone_number : String) : DispatchOutcome :=
  if cfg.twilio_client && truthy cfg.sms_from then
    match env.twilio_sms_send with
    | none =>
        { success := true, notification_type := .sms, recipient := phone_number,
          status := .sent, error := none }
    | some e =>
        { success := false, notification_type := .sms, recipient := phone_number,
          status := .failed, error := some e }
  else
    { success := false, notification_type := .sms, recipient := phone_number,
      status := .failed, error := some "SMS configuration incomplete" }

/-- Dispatcher `send_whatsapp_notification` (lines 222 to 268),
analogous to SMS. -/
def send_whatsapp_notification (cfg : ServiceConfig) (env : ProviderEnv)
    (phone_number : String) : DispatchOutcome :=
  if cfg.twilio_client && truthy cfg.whatsapp_from then
    match env.twilio_whatsapp_send with
    | none =>
        { success := true, notification_type := .whatsapp,
          recipient := phone_number, status := .sent, error := none }
    | some e =>
        { success := false, notification_type := .whatsapp,
          recipient := phone_number, status := .failed, error := some e }
  else
    { success := false, notification_type := .whatsapp,
      recipient := phone_number, status := .failed,
      error := some "WhatsApp configuration incomplete" }

/-- Dispatcher `send_push_notification` (lines 270 to 296): a stub that
logs and immediately returns a queued outcome; it takes no provider
configuration and consults no provider environment — there is no
provider call — and the title, body and data arguments are ignored. -/
def send_push_notification (user_id title body : String)
    (data : Option (List (String × String))) : DispatchOutcome :=
  { success := true, notification_type := .push, recipient := user_id,
    status := .pending, error := none }

/-- The multi-channel fan-out `send_deadline_reminder` (lines 298 to
410): with `notification_types` absent it defaults to email only; each
channel block appends its dispatcher's outcome when the channel is
requested (SMS and WhatsApp additionally require a truthy phone
number); the push channel receives the user email as its user id.
Rendered payload strings are abstracted away: no outcome field depends
on them. -/
def send_deadline_reminder (cfg : ServiceConfig) (env : ProviderEnv)
    (user_email : String) (user_phone : Option String)
    (notification_types : Option (List NotificationType)) :
    List DispatchOutcome :=
  let types := notification_types.getD [NotificationType.email]
  (if NotificationType.email ∈ types then
      [send_email_notification cfg env user_email] else []) ++
  (if NotificationType.sms ∈ types ∧ truthy user_phone = true then
      [send_sms_notification cfg env (user_phone.getD "")] else []) ++
  (if NotificationType.whatsapp ∈ types ∧ truthy user_phone = true then
      [send_whatsapp_notification cfg env (user_phone.getD "")] else []) ++
  (if NotificationType.push ∈ types then
      [send_push_notification user_email "" "" none] else [])

/-- The channels `send_deadline_reminder` attempts, in code order. -/
def attempted_channels (user_phone : Option String)
    (types : List NotificationType) : List NotificationType :=
  (if NotificationType.email ∈ types then [NotificationType.email] else []) ++
  (if NotificationType.sms ∈ types ∧ truthy user_phone = true then
      [NotificationType.sms] else []) ++
  (if NotificationType.whatsapp ∈ types ∧ truthy user_phone = true then
      [NotificationType.whatsapp] else []) ++
  (if NotificationType.push ∈ types then [NotificationType.push] else [])

/-- The dispatcher invoked for one attempted channel. -/
def dispatch_on (cfg : ServiceConfig) (env : ProviderEnv) (user_email : String)
    (user_phone : Option String) : NotificationType → DispatchOutcome
  | .email => send_email_notification cfg env user_email
  | .sms => send_sms_notification cfg env (user_phone.getD "")
  | .whatsapp => send_whatsapp_notification cfg env (user_phone.getD "")
  | .push => send_push_notification user_email "" "" none

/-- Every dispatcher outcome is well-formed: the channel tag matches the
dispatcher, and either the send succeeded with no error detail or it
failed with an error detail attached. -/
theorem dispatch_on_shape (cfg : ServiceConfig) (env : ProviderEnv)
    (user_email : String) (user_phone : Option String) (c : NotificationType) :
    (dispatch_on cfg env user_email user_phone c).notification_type = c ∧
    (((dispatch_on cfg env user_email user_phone c).success = true ∧
        (dispatch_on cfg env user_email user_phone c).error = none) ∨
      ((dispatch_on cfg env user_email user_phone c).success = false ∧
        ((dispatch_on cfg env user_email user_phone c).error).isSome = true)) := by
  cases c
  · unfold dispatch_on send_email_notification
    split_ifs
    · cases env.sendgrid_send <;> simp
    · simp
  · unfold dispatch_on send_sms_notification
    split_ifs
    · cases env.twilio_sms_send <;> simp
    · simp
  · unfold dispatch_on send_whatsapp_notification
    split_ifs
    · cases env.twilio_whatsapp_send <;> simp
    · simp
  · unfold dispatch_on send_push_notification
    simp

/-- C9: every channel dispatcher returns an outcome record (success
flag plus error detail, never an exception — each `send_*` method is a
total function into `DispatchOutcome`), and the fan-out of
`send_deadline_reminder` equals the per-channel dispatch mapped over
the attempted channels: one outcome per attempted channel, so a failure
on one channel cannot suppress the attempts of the remaining ones. -/
theorem dispatch_fanout_outcomes (cfg : ServiceConfig) (env : ProviderEnv)
    (user_email : String) (user_phone : Option String)
    (types : List NotificationType) :
    send_deadline_reminder cfg env user_email user_phone (some types) =
      (attempted_channels user_phone types).map
        (dispatch_on cfg env user_email user_phone) ∧
    (send_deadline_reminder cfg env user_email user_phone (some types)).length =
      (attempted_channels user_phone types).length ∧
    (∀ c : NotificationType,
      (dispatch_on cfg env user_email user_phone c).notification_type = c ∧
      (((dispatch_on cfg env user_email user_phone c).success = true ∧
          (dispatch_on cfg env user_email user_phone c).error = none) ∨
        ((dispatch_on cfg env user_email user_phone c).success = false ∧
          ((dispatch_on cfg env user_email user_phone c).error).isSome = true))) := by
  have hmap : send_deadline_reminder cfg env user_email user_phone (some types) =
      (attempted_channels user_phone types).map
        (dispatch_on cfg env user_email user_phone) := by
    unfold send_deadline_reminder attempted_channels
    simp only [Option.getD_some, List.map_append]
    split_ifs <;> rfl
  refine ⟨hmap, by rw [hmap, List.length_map], ?_⟩
  exact fun c => dispatch_on_shape cfg env user_email user_phone c

/-- C10: for every input, the push dispatcher performs no provider call
(it consults neither configuration nor provider environment) and
returns success with status pending; hence any fan-out that includes
the push channel reports at least one successful outcome regardless of
what the real providers did. -/
theorem push_always_pending_success (u t b : String)
    (d : Option (List (String × String))) (cfg : ServiceConfig)
    (env : ProviderEnv) (user_email : String) (user_phone : Option String)
    (types : List NotificationType) (h : NotificationType.push ∈ types) :
    send_push_notification u t b d =
      { success := true, notification_type := .push, recipient := u,
        status := .pending, error := none } ∧
    ∃ o ∈ send_deadline_reminder cfg env user_email user_phone (some types),
      o.success = true := by
  refine ⟨rfl, ⟨send_push_notification user_email "" "" none, ?_, rfl⟩⟩
  unfold send_deadline_reminder
  simp only [Option.getD_some, List.mem_append]
  right
  simp [h]

/-- An empty provider configuration: no SendGrid key, no Twilio client. -/
def cfg_none : ServiceConfig :=
  { sendgrid_api_key := none, twilio_client := false, sms_from := none,
    whatsapp_from := none }

/-- Providers that would all accept, were they called. -/
def env_idle : ProviderEnv :=
  { sendgrid_send := none, twilio_sms_send := none, twilio_whatsapp_send := none }

/-- Witness for C10: push-only fan-out with no provider configured still
reports a successful outcome. -/
theorem push_always_pending_success_witness :
    send_push_notification "u@example.org" "t" "b" none =
      { success := true, notification_type := .push,
        recipient := "u@example.org", status := .pending, error := none } ∧
    ∃ o ∈ send_deadline_reminder cfg_none env_idle "u@example.org" none
        (some [NotificationType.push]), o.success = true :=
  push_always_pending_success "u@example.org" "t" "b" none cfg_none env_idle
    "u@example.org" none [NotificationType.push] (by decide)
